import Mathlib

/-!
Verification development for the DiscordSoundplayer repository
(src/main.rs). The Rust source is shallowly embedded: pure helpers become
Lean functions, the filesystem and the external collaborators (songbird
voice manager, ffmpeg source opening, the chat gateway) become explicit
parameters, and each claim about the program is settled as a theorem over
these definitions.
-/

/-- Model of Rust str::to_lowercase restricted to the characters this
program distinguishes: ASCII uppercase letters are shifted by 32, the
uppercase forms of the accented vowels handled by soundboard_sanitize map
to their lowercase forms, every other character is left unchanged. -/
def rustLowerChar (c : Char) : Char :=
  if 65 ≤ c.toNat ∧ c.toNat ≤ 90 then Char.ofNat (c.toNat + 32)
  else if c = 'Ű' then 'ű'
  else if c = 'Ü' then 'ü'
  else if c = 'Ú' then 'ú'
  else if c = 'Ö' then 'ö'
  else if c = 'Ő' then 'ő'
  else if c = 'Ó' then 'ó'
  else if c = 'Á' then 'á'
  else if c = 'Í' then 'í'
  else if c = 'É' then 'é'
  else c

/-- Model of str::to_lowercase applied to a whole string (character-wise). -/
def rustToLowercase (s : String) : String :=
  ⟨s.data.map rustLowerChar⟩

/-- Character-level step of Rust str::replace for a single-character
pattern: the character a is replaced by b. -/
def replaceCharF (a b : Char) (c : Char) : Char :=
  if c = a then b else c

/-- Model of str::replace with a single-character pattern and a
single-character replacement, as used in soundboard_sanitize. -/
def replaceChar (a b : Char) (s : String) : String :=
  ⟨s.data.map (replaceCharF a b)⟩

/-- Model of str::replace of a single-character pattern by the empty
string, as used by the final replace of soundboard_sanitize. -/
def removeChar (a : Char) (s : String) : String :=
  ⟨s.data.filter (fun c => c != a)⟩

/-- Embedding of soundboard_sanitize (src/main.rs): lowercase, then the
nine accent replacements in source order, then remove spaces. -/
def soundboard_sanitize (str : String) : String :=
  let str := rustToLowercase str
  let str := replaceChar 'ű' 'u' str
  let str := replaceChar 'ü' 'u' str
  let str := replaceChar 'ú' 'u' str
  let str := replaceChar 'ö' 'o' str
  let str := replaceChar 'ő' 'o' str
  let str := replaceChar 'ó' 'o' str
  let str := replaceChar 'á' 'a' str
  let str := replaceChar 'í' 'i' str
  let str := replaceChar 'é' 'e' str
  let str := removeChar ' ' str
  str

/-- Embedding of soundboard_compare (src/main.rs): both strings are
sanitized and the sanitized name chunk must be a prefix of the sanitized
file name (Rust starts_with). -/
def soundboard_compare (file_name : String) (name_chunk : String) : Bool :=
  (soundboard_sanitize name_chunk).data.isPrefixOf (soundboard_sanitize file_name).data

/-- Canonicalization written the way the specification words it: lowercase
the string, fold each accented vowel to its unaccented equivalent in one
character-wise pass, then strip all space characters. -/
def specFoldChar (c : Char) : Char :=
  if c = 'ű' ∨ c = 'ü' ∨ c = 'ú' then 'u'
  else if c = 'ö' ∨ c = 'ő' ∨ c = 'ó' then 'o'
  else if c = 'á' then 'a'
  else if c = 'í' then 'i'
  else if c = 'é' then 'e'
  else c

/-- Canonicalization per the specification text, to be compared with the
source-derived soundboard_sanitize. -/
def sanitizeSpec (s : String) : String :=
  ⟨((rustToLowercase s).data.map specFoldChar).filter (fun c => c != ' ')⟩

/-- Model of std::path::PathBuf as far as the embedded code inspects it:
fileName models path.file_name().and_then(|n| n.to_str()), which is None
when the path has no final component or it is not valid UTF-8. -/
structure FsPath where
  fileName : Option String
deriving DecidableEq, Repr

/-- Model of one std::fs::DirEntry: its path and whether path.is_dir(). -/
structure DirEntry where
  path : FsPath
  isDir : Bool
deriving DecidableEq, Repr

/-- Embedding of the extract_name closure in find_path_for_name: the file
name of the path, or the fixed fallback when it is unavailable. -/
def extract_name (p : FsPath) : String :=
  p.fileName.getD "NOFILENAMEERROR"

/-- Embedding of the directory-walking loop in find_path_for_name: each
listed entry is None when reading that entry failed (entry.ok()? aborts the
whole resolution), directories are skipped, file paths are collected in
listing order. -/
def collectFiles : List (Option DirEntry) → Option (List FsPath)
  | [] => some []
  | none :: _ => none
  | some entry :: rest =>
    match collectFiles rest with
    | none => none
    | some files => if entry.isDir then some files else some (entry.path :: files)

/-- Embedding of find_path_for_name (src/main.rs). The listing argument is
the snapshot of std::fs::read_dir on the configured sounds directory: None
when the directory read itself failed, and each element None when reading
that entry failed. The first collected file whose name matches the fragment
under soundboard_compare is returned. -/
def find_path_for_name (name : String) (listing : Option (List (Option DirEntry))) :
    Option FsPath :=
  match listing with
  | none => none
  | some entries =>
    match collectFiles entries with
    | none => none
    | some files =>
      match (files.filter (fun path => soundboard_compare (extract_name path) name)).head? with
      | none => none
      | some path => some path

/-- Model of a songbird Call handle as far as the embedded code uses it:
the mute and deafen flags read by is_mute/is_deaf and written by
mute/deafen. Streamed sources are handed off fire-and-forget and are not
part of the observable state the claims mention. -/
structure Call where
  isMute : Bool
  isDeaf : Bool
deriving DecidableEq, Repr

/-- Model of serenity's GuildStatus with the three variants the source
matches on; each carries the guild identifier that guild.id()/guild.id
extracts. -/
inductive GuildStatus where
  | onlinePartialGuild (id : Nat)
  | onlineGuild (id : Nat)
  | offline (id : Nat)
deriving DecidableEq, Repr

/-- Extraction of the guild identifier, as the match at the top of
find_active_voice_channel performs it. -/
def GuildStatus.guildId : GuildStatus → Nat
  | .onlinePartialGuild id => id
  | .onlineGuild id => id
  | .offline id => id

/-- Model of HandlerState (src/main.rs): ctx is opaque to the embedded
code (only its presence is ever tested), guilds is the room list stored by
the ready event. -/
structure HandlerState where
  ctx : Option Unit
  guilds : List GuildStatus

/-- Model of the songbird manager registry: for each guild identifier,
the active Call handle if one exists (manager.get). -/
abbrev Manager := Nat → Option Call

/-- Embedding of the guild loop inside find_active_voice_channel: the
first guild, in stored order, whose manager lookup holds a handle. -/
def scanGuilds (manager : Manager) : List GuildStatus → Option Call
  | [] => none
  | guild :: rest =>
    match manager guild.guildId with
    | some voice_channel => some voice_channel
    | none => scanGuilds manager rest

/-- Embedding of find_active_voice_channel (src/main.rs): error when the
connection context is unset, otherwise the first known guild holding an
active session, else the no-active-channel error. -/
def find_active_voice_channel (state : HandlerState) (manager : Manager) :
    Except String Call :=
  match state.ctx with
  | none => Except.error "State is uninitialized"
  | some _ =>
    match scanGuilds manager state.guilds with
    | some voice_channel => Except.ok voice_channel
    | none => Except.error "No active voice channel found"

/-- Collaborator and filesystem surroundings of one play request: listing
models std::fs::read_dir of GLOBA_SOUNDS_DIR (None when the directory read
failed, an element None when reading that entry failed), ffmpeg models
songbird::input::ffmpeg (none when the source cannot be opened), manager
models the songbird registry. -/
structure PlayEnv where
  listing : Option (List (Option DirEntry))
  ffmpeg : FsPath → Option Unit
  manager : Manager

/-- Embedding of process_input (src/main.rs): resolve the fragment, take
the file name, open the source, find the active voice channel, hand the
source off, and return the result message. Errors are returned as strings
exactly as the source produces them. -/
def process_input (input : String) (state : HandlerState) (env : PlayEnv) :
    Except String String :=
  match find_path_for_name input env.listing with
  | none => Except.error "no matching file found"
  | some path =>
    match path.fileName with
    | none => Except.error "Invalid path"
    | some file_name =>
      match env.ffmpeg path with
      | none => Except.error ("Invalid file: " ++ file_name)
      | some _ =>
        match find_active_voice_channel state env.manager with
        | Except.error e => Except.error e
        | Except.ok _ => Except.ok ("Playing " ++ file_name)

/-- Characters removed by Rust str::trim, restricted to the ASCII
whitespace this program can meet on a console line. -/
def isTrimChar (c : Char) : Bool :=
  c == ' ' || c == '\t' || c == '\n' || c == '\r'

/-- Model of str::trim: whitespace stripped from both ends. -/
def rustTrim (s : String) : String :=
  ⟨((s.data.dropWhile isTrimChar).reverse.dropWhile isTrimChar).reverse⟩

/-- Observable outcome of the console loop on a finite script of reads:
the lines printed, in order, and whether shutdown_all was invoked. -/
structure LoopResult where
  outputs : List String
  shutdownRequested : Bool
deriving DecidableEq, Repr

/-- The printing arms of the console loop: both the Ok and the Err result
of process_input are printed verbatim. -/
def reportLine : Except String String → String
  | Except.ok msg => msg
  | Except.error msg => msg

/-- Embedding of command_line_loop (src/main.rs) run over a finite script
of stdin reads (None models a failed read_line, which the source silently
retries). A line trimming to the exit sentinel invokes shutdown_all and
stops; every other line is passed to process_input and the result printed. -/
def command_line_loop (lines : List (Option String)) (state : HandlerState)
    (env : PlayEnv) : LoopResult :=
  match lines with
  | [] => { outputs := [], shutdownRequested := false }
  | readResult :: rest =>
    match readResult with
    | none => command_line_loop rest state env
    | some line =>
      if rustTrim line = "exit" then { outputs := [], shutdownRequested := true }
      else
        let msg := reportLine (process_input (rustTrim line) state env)
        let r := command_line_loop rest state env
        { outputs := msg :: r.outputs, shutdownRequested := r.shutdownRequested }

/-- Pointwise update of the manager registry, modelling the effect of
handler.mute/handler.deafen through the shared Call handle. -/
def updateManager (manager : Manager) (guild_id : Nat) (call : Call) : Manager :=
  fun g => if g = guild_id then some call else manager g

/-- Embedding of the mute command handler (src/main.rs): reply message and
resulting registry, with the collaborator call handler.mute(true) modelled
as succeeding (its failure path would add a Failed message and still set
the flag on the collaborator side). -/
def mute_handler (manager : Manager) (guild_id : Nat) : String × Manager :=
  match manager guild_id with
  | none => ("Not in a voice channel", manager)
  | some handler =>
    if handler.isMute then ("Already muted", manager)
    else ("Now muted", updateManager manager guild_id { handler with isMute := true })

/-- Embedding of the unmute command handler (src/main.rs): the flag is
cleared unconditionally (handler.mute(false), modelled as succeeding) and
the success message is sent whenever a handle exists. -/
def unmute_handler (manager : Manager) (guild_id : Nat) : String × Manager :=
  match manager guild_id with
  | none => ("Not in a voice channel to unmute in", manager)
  | some handler =>
    ("Unmuted", updateManager manager guild_id { handler with isMute := false })

/-- Embedding of the chat play command handler (src/main.rs): args models
args.single::<String>() (none when the argument is missing or malformed);
the reply message is returned. -/
def play_handler (args : Option String) (env : PlayEnv) (guild_id : Nat) : String :=
  match args with
  | none => "No matching sound."
  | some file_name_chunk =>
    match find_path_for_name file_name_chunk env.listing with
    | none => "no matching file found"
    | some path =>
      match env.ffmpeg path with
      | none => "Error sourcing ffmpeg"
      | some _ =>
        match env.manager guild_id with
        | none => "Not in a voice channel to play in"
        | some _ => "Playing song " ++ toString 2

/-- Demonstration environment for the end-to-end console scenario: the
sounds directory holds exactly applause.wav, sources open successfully,
and guild 1 has an active session. -/
def demoEnv : PlayEnv :=
  { listing := some [some ⟨⟨some "applause.wav"⟩, false⟩]
    ffmpeg := fun _ => some ()
    manager := fun g => if g = 1 then some ⟨false, false⟩ else none }

/-- Handler state after the ready event in the demonstration scenario:
the connection context is set and guild 1 is known. -/
def readyState : HandlerState :=
  ⟨some (), [GuildStatus.onlineGuild 1]⟩

lemma toNat_ofNat_validChar (n : Nat) (hv : n.isValidChar) : (Char.ofNat n).toNat = n := by
  unfold Char.ofNat
  rw [dif_pos hv]
  rfl

lemma replaceChain_eq_specFold (c : Char) :
    replaceCharF 'é' 'e' (replaceCharF 'í' 'i' (replaceCharF 'á' 'a'
      (replaceCharF 'ó' 'o' (replaceCharF 'ő' 'o' (replaceCharF 'ö' 'o'
      (replaceCharF 'ú' 'u' (replaceCharF 'ü' 'u' (replaceCharF 'ű' 'u' c))))))))
    = specFoldChar c := by
  by_cases h1 : c = 'ű'
  · subst h1; decide
  by_cases h2 : c = 'ü'
  · subst h2; decide
  by_cases h3 : c = 'ú'
  · subst h3; decide
  by_cases h4 : c = 'ö'
  · subst h4; decide
  by_cases h5 : c = 'ő'
  · subst h5; decide
  by_cases h6 : c = 'ó'
  · subst h6; decide
  by_cases h7 : c = 'á'
  · subst h7; decide
  by_cases h8 : c = 'í'
  · subst h8; decide
  by_cases h9 : c = 'é'
  · subst h9; decide
  simp [replaceCharF, specFoldChar, h1, h2, h3, h4, h5, h6, h7, h8, h9]

lemma soundboard_sanitize_data (s : String) :
    (soundboard_sanitize s).data
      = (s.data.map (fun c => specFoldChar (rustLowerChar c))).filter (fun c => c != ' ') := by
  show (((((((((((s.data.map rustLowerChar).map (replaceCharF 'ű' 'u')).map
      (replaceCharF 'ü' 'u')).map (replaceCharF 'ú' 'u')).map (replaceCharF 'ö' 'o')).map
      (replaceCharF 'ő' 'o')).map (replaceCharF 'ó' 'o')).map (replaceCharF 'á' 'a')).map
      (replaceCharF 'í' 'i')).map (replaceCharF 'é' 'e')).filter (fun c => c != ' '))
      = (s.data.map (fun c => specFoldChar (rustLowerChar c))).filter (fun c => c != ' ')
  simp only [List.map_map]
  have hmap : s.data.map (replaceCharF 'é' 'e' ∘ replaceCharF 'í' 'i' ∘ replaceCharF 'á' 'a' ∘
      replaceCharF 'ó' 'o' ∘ replaceCharF 'ő' 'o' ∘ replaceCharF 'ö' 'o' ∘ replaceCharF 'ú' 'u' ∘
      replaceCharF 'ü' 'u' ∘ replaceCharF 'ű' 'u' ∘ rustLowerChar)
      = s.data.map (fun c => specFoldChar (rustLowerChar c)) := by
    apply List.map_congr_left
    intro a _
    simp only [Function.comp]
    exact replaceChain_eq_specFold (rustLowerChar a)
  rw [hmap]

/-- C2: soundboard_sanitize computes exactly the specified canonicalization:
lowercase, then fold ű ü ú to u, ö ő ó to o, á to a, í to i, é to e, then
strip all space characters. -/
theorem sanitize_matches_spec (s : String) : soundboard_sanitize s = sanitizeSpec s := by
  apply String.ext
  rw [soundboard_sanitize_data]
  simp only [sanitizeSpec, rustToLowercase, List.map_map]
  rfl

lemma specFoldChar_eq_self_of_toNat {d : Char} (h : d.toNat ≤ 122) : specFoldChar d = d := by
  have h1 : d ≠ 'ű' := fun he => absurd (he ▸ h) (by decide)
  have h2 : d ≠ 'ü' := fun he => absurd (he ▸ h) (by decide)
  have h3 : d ≠ 'ú' := fun he => absurd (he ▸ h) (by decide)
  have h4 : d ≠ 'ö' := fun he => absurd (he ▸ h) (by decide)
  have h5 : d ≠ 'ő' := fun he => absurd (he ▸ h) (by decide)
  have h6 : d ≠ 'ó' := fun he => absurd (he ▸ h) (by decide)
  have h7 : d ≠ 'á' := fun he => absurd (he ▸ h) (by decide)
  have h8 : d ≠ 'í' := fun he => absurd (he ▸ h) (by decide)
  have h9 : d ≠ 'é' := fun he => absurd (he ▸ h) (by decide)
  simp [specFoldChar, h1, h2, h3, h4, h5, h6, h7, h8, h9]

lemma rustLowerChar_eq_self_of {d : Char} (h1 : 97 ≤ d.toNat) (h2 : d.toNat ≤ 122) :
    rustLowerChar d = d := by
  have hA : ¬(65 ≤ d.toNat ∧ d.toNat ≤ 90) := by omega
  have u1 : d ≠ 'Ű' := fun he => absurd (he ▸ h2) (by decide)
  have u2 : d ≠ 'Ü' := fun he => absurd (he ▸ h2) (by decide)
  have u3 : d ≠ 'Ú' := fun he => absurd (he ▸ h2) (by decide)
  have u4 : d ≠ 'Ö' := fun he => absurd (he ▸ h2) (by decide)
  have u5 : d ≠ 'Ő' := fun he => absurd (he ▸ h2) (by decide)
  have u6 : d ≠ 'Ó' := fun he => absurd (he ▸ h2) (by decide)
  have u7 : d ≠ 'Á' := fun he => absurd (he ▸ h2) (by decide)
  have u8 : d ≠ 'Í' := fun he => absurd (he ▸ h2) (by decide)
  have u9 : d ≠ 'É' := fun he => absurd (he ▸ h2) (by decide)
  simp [rustLowerChar, hA, u1, u2, u3, u4, u5, u6, u7, u8, u9]

lemma san_char_idem (c : Char) :
    specFoldChar (rustLowerChar (specFoldChar (rustLowerChar c)))
      = specFoldChar (rustLowerChar c) := by
  by_cases hA : 65 ≤ c.toNat ∧ c.toNat ≤ 90
  · obtain ⟨ha, hb⟩ := hA
    have hv : (c.toNat + 32).isValidChar := Or.inl (by omega)
    have hm : (Char.ofNat (c.toNat + 32)).toNat = c.toNat + 32 := toNat_ofNat_validChar _ hv
    have hlc : rustLowerChar c = Char.ofNat (c.toNat + 32) := by
      simp [rustLowerChar, ha, hb]
    have s1 : specFoldChar (Char.ofNat (c.toNat + 32)) = Char.ofNat (c.toNat + 32) :=
      specFoldChar_eq_self_of_toNat (by omega)
    have s2 : rustLowerChar (Char.ofNat (c.toNat + 32)) = Char.ofNat (c.toNat + 32) :=
      rustLowerChar_eq_self_of (by omega) (by omega)
    rw [hlc, s1, s2, s1]
  by_cases k1 : c = 'Ű'
  · subst k1; decide
  by_cases k2 : c = 'Ü'
  · subst k2; decide
  by_cases k3 : c = 'Ú'
  · subst k3; decide
  by_cases k4 : c = 'Ö'
  · subst k4; decide
  by_cases k5 : c = 'Ő'
  · subst k5; decide
  by_cases k6 : c = 'Ó'
  · subst k6; decide
  by_cases k7 : c = 'Á'
  · subst k7; decide
  by_cases k8 : c = 'Í'
  · subst k8; decide
  by_cases k9 : c = 'É'
  · subst k9; decide
  by_cases m1 : c = 'ű'
  · subst m1; decide
  by_cases m2 : c = 'ü'
  · subst m2; decide
  by_cases m3 : c = 'ú'
  · subst m3; decide
  by_cases m4 : c = 'ö'
  · subst m4; decide
  by_cases m5 : c = 'ő'
  · subst m5; decide
  by_cases m6 : c = 'ó'
  · subst m6; decide
  by_cases m7 : c = 'á'
  · subst m7; decide
  by_cases m8 : c = 'í'
  · subst m8; decide
  by_cases m9 : c = 'é'
  · subst m9; decide
  have e1 : rustLowerChar c = c := by
    simp [rustLowerChar, hA, k1, k2, k3, k4, k5, k6, k7, k8, k9]
  have e2 : specFoldChar c = c := by
    simp [specFoldChar, m1, m2, m3, m4, m5, m6, m7, m8, m9]
  rw [e1, e2, e1, e2]

/-- C3: soundboard_sanitize is idempotent: sanitizing an already sanitized
string changes nothing. -/
theorem sanitize_idempotent (s : String) :
    soundboard_sanitize (soundboard_sanitize s) = soundboard_sanitize s := by
  apply String.ext
  rw [soundboard_sanitize_data, soundboard_sanitize_data]
  have hmem : ∀ c ∈ (s.data.map (fun c => specFoldChar (rustLowerChar c))).filter
      (fun c => c != ' '), specFoldChar (rustLowerChar c) = c := by
    intro c hc
    obtain ⟨hc1, _⟩ := List.mem_filter.mp hc
    obtain ⟨a, _, rfl⟩ := List.mem_map.mp hc1
    exact san_char_idem a
  rw [(List.map_congr_left hmem).trans (List.map_id _)]
  apply List.filter_eq_self.mpr
  intro a ha
  exact (List.mem_filter.mp ha).2


lemma head?_filter_eq_find? {α : Type} (p : α → Bool) (l : List α) :
    (l.filter p).head? = l.find? p := by
  induction l with
  | nil => rfl
  | cons a l ih =>
    by_cases h : p a
    · simp [List.filter_cons, List.find?_cons, h]
    · simp only [List.filter_cons, List.find?_cons, h]
      simp only [Bool.false_eq_true, if_false, cond_false]
      exact ih

lemma collectFiles_eq_of_some {entries : List (Option DirEntry)} {files : List FsPath}
    (h : collectFiles entries = some files) :
    files = ((entries.filterMap id).filter (fun e => !e.isDir)).map DirEntry.path := by
  induction entries generalizing files with
  | nil =>
    simp only [collectFiles, Option.some.injEq] at h
    subst h
    rfl
  | cons e rest ih =>
    cases e with
    | none => simp [collectFiles] at h
    | some d =>
      cases hr : collectFiles rest with
      | none => simp [collectFiles, hr] at h
      | some fs =>
        simp only [collectFiles, hr] at h
        by_cases hd : d.isDir
        · rw [if_pos hd, Option.some.injEq] at h
          subst h
          simp [List.filterMap_cons, List.filter_cons, hd, ih hr]
        · rw [if_neg hd, Option.some.injEq] at h
          subst h
          have hd' : d.isDir = false := Bool.eq_false_iff.mpr hd
          simp [List.filterMap_cons, List.filter_cons, hd', ih hr]

lemma collectFiles_eq_none_of_mem_none {entries : List (Option DirEntry)}
    (h : none ∈ entries) : collectFiles entries = none := by
  induction entries with
  | nil => cases h
  | cons e rest ih =>
    cases e with
    | none => rfl
    | some d =>
      have hr : (none : Option DirEntry) ∈ rest := by
        cases List.mem_cons.mp h with
        | inl hc => cases hc
        | inr hc => exact hc
      simp [collectFiles, ih hr]

/-- C1: for every directory listing that reads cleanly and every fragment,
find_path_for_name returns the first collected regular file, in listing
order, whose sanitized name the sanitized fragment prefixes; it returns
none exactly when no collected file matches; and the collected files are
the non-directory entries in listing order (subdirectories skipped). -/
theorem find_path_first_match (name : String) (entries : List (Option DirEntry))
    (files : List FsPath) (h : collectFiles entries = some files) :
    find_path_for_name name (some entries)
        = files.find? (fun p => soundboard_compare (extract_name p) name)
      ∧ (find_path_for_name name (some entries) = none
          ↔ ∀ p ∈ files, soundboard_compare (extract_name p) name = false)
      ∧ files = ((entries.filterMap id).filter (fun e => !e.isDir)).map DirEntry.path := by
  have hfind : find_path_for_name name (some entries)
      = files.find? (fun p => soundboard_compare (extract_name p) name) := by
    simp only [find_path_for_name, h]
    rw [head?_filter_eq_find?]
    cases files.find? (fun p => soundboard_compare (extract_name p) name) <;> rfl
  refine ⟨hfind, ?_, collectFiles_eq_of_some h⟩
  rw [hfind, List.find?_eq_none]
  constructor
  · intro hn p hp
    exact Bool.eq_false_iff.mpr (hn p hp)
  · intro hn p hp
    rw [hn p hp]
    exact Bool.false_ne_true

theorem find_path_first_match_witness :
    collectFiles [some ⟨⟨some "applause.wav"⟩, false⟩] = some [⟨some "applause.wav"⟩]
      ∧ find_path_for_name "appla" (some [some ⟨⟨some "applause.wav"⟩, false⟩])
          = [(⟨some "applause.wav"⟩ : FsPath)].find?
              (fun p => soundboard_compare (extract_name p) "appla") :=
  ⟨by decide, (find_path_first_match "appla" [some ⟨⟨some "applause.wav"⟩, false⟩]
      [⟨some "applause.wav"⟩] (by decide)).1⟩

/-- C9: when reading the sounds directory itself fails the resolver
returns none, and when reading any single directory entry fails during
enumeration the resolver returns none regardless of what the other
entries — in particular later matching ones — contain. -/
theorem resolver_none_on_read_failure (name : String) :
    find_path_for_name name none = none
      ∧ ∀ pre post : List (Option DirEntry),
          find_path_for_name name (some (pre ++ none :: post)) = none := by
  refine ⟨rfl, ?_⟩
  intro pre post
  have hmem : (none : Option DirEntry) ∈ pre ++ none :: post :=
    List.mem_append_right _ (List.mem_cons_self _ _)
  simp [find_path_for_name, collectFiles_eq_none_of_mem_none hmem]

/-- C8: a fragment whose sanitized form is empty (for example one made of
spaces only) matches every collected file, so on a cleanly read directory
with at least one regular file the resolver returns the first file in
listing order and never none. -/
theorem empty_fragment_matches_first (name : String) (entries : List (Option DirEntry))
    (files : List FsPath) (hname : soundboard_sanitize name = "")
    (h : collectFiles entries = some files) (hne : files ≠ []) :
    (∀ p ∈ files, soundboard_compare (extract_name p) name = true)
      ∧ find_path_for_name name (some entries) = files.head?
      ∧ find_path_for_name name (some entries) ≠ none := by
  have hall : ∀ p : FsPath, soundboard_compare (extract_name p) name = true := by
    intro p
    unfold soundboard_compare
    rw [hname, show ("" : String).data = [] from rfl]
    cases (soundboard_sanitize (extract_name p)).data <;> rfl
  have h2 : find_path_for_name name (some entries) = files.head? := by
    simp only [find_path_for_name, h]
    rw [List.filter_eq_self.mpr (fun a _ => hall a)]
    cases files.head? <;> rfl
  refine ⟨fun p _ => hall p, h2, ?_⟩
  rw [h2]
  cases files with
  | nil => exact absurd rfl hne
  | cons a l => simp

theorem empty_fragment_matches_first_witness :
    soundboard_sanitize "   " = ""
      ∧ collectFiles [some ⟨⟨some "b.wav"⟩, false⟩, some ⟨⟨some "a.wav"⟩, false⟩]
          = some [⟨some "b.wav"⟩, ⟨some "a.wav"⟩]
      ∧ ([(⟨some "b.wav"⟩ : FsPath), ⟨some "a.wav"⟩] ≠ [])
      ∧ find_path_for_name "   " (some [some ⟨⟨some "b.wav"⟩, false⟩, some ⟨⟨some "a.wav"⟩, false⟩])
          = [(⟨some "b.wav"⟩ : FsPath), ⟨some "a.wav"⟩].head? :=
  ⟨by decide, by decide, by decide,
    (empty_fragment_matches_first "   " [some ⟨⟨some "b.wav"⟩, false⟩, some ⟨⟨some "a.wav"⟩, false⟩]
      [⟨some "b.wav"⟩, ⟨some "a.wav"⟩] (by decide) (by decide) (by decide)).2.1⟩

lemma scanGuilds_eq_findSome? (manager : Manager) (gs : List GuildStatus) :
    scanGuilds manager gs = gs.findSome? (fun g => manager g.guildId) := by
  induction gs with
  | nil => rfl
  | cons g rest ih =>
    simp only [scanGuilds, List.findSome?_cons]
    cases manager g.guildId <;> simp [ih]

/-- C4: find_active_voice_channel fails with the fixed not-ready error
when the connection context is unset; otherwise it scans the stored rooms
in order, returns the first room's active session handle, and reports the
no-active-session error when no room has one. -/
theorem find_active_session_spec (state : HandlerState) (manager : Manager) :
    (state.ctx = none →
        find_active_voice_channel state manager = Except.error "State is uninitialized")
      ∧ (state.ctx ≠ none →
          find_active_voice_channel state manager
            = match state.guilds.findSome? (fun g => manager g.guildId) with
              | some call => Except.ok call
              | none => Except.error "No active voice channel found")
      ∧ scanGuilds manager state.guilds
          = state.guilds.findSome? (fun g => manager g.guildId) := by
  refine ⟨?_, ?_, scanGuilds_eq_findSome? manager state.guilds⟩
  · intro h
    simp [find_active_voice_channel, h]
  · intro h
    cases hc : state.ctx with
    | none => exact absurd hc h
    | some u =>
      simp only [find_active_voice_channel, hc, scanGuilds_eq_findSome?]

theorem find_active_session_spec_witness :
    ((⟨none, []⟩ : HandlerState).ctx = none
      ∧ find_active_voice_channel ⟨none, []⟩ (fun _ => none)
          = Except.error "State is uninitialized")
    ∧ ((⟨some (), [GuildStatus.offline 3, GuildStatus.onlineGuild 5]⟩ : HandlerState).ctx ≠ none
      ∧ find_active_voice_channel ⟨some (), [GuildStatus.offline 3, GuildStatus.onlineGuild 5]⟩
          (fun g => if g = 5 then some ⟨false, false⟩ else none)
          = Except.ok ⟨false, false⟩) :=
  ⟨⟨rfl, (find_active_session_spec ⟨none, []⟩ (fun _ => none)).1 rfl⟩,
    ⟨Option.some_ne_none (),
      ((find_active_session_spec ⟨some (), [GuildStatus.offline 3, GuildStatus.onlineGuild 5]⟩
        (fun g => if g = 5 then some ⟨false, false⟩ else none)).2.1
        (Option.some_ne_none ())).trans rfl⟩⟩

/-- C5: with a session handle present for the room, the second of two
consecutive mute calls reports already muted and skips the flag-setting
call (the registry is left as after the first call), while unmute clears
the flag unconditionally and reports the success message on both of two
consecutive calls. -/
theorem mute_unmute_asymmetry (manager : Manager) (guild_id : Nat) (call : Call)
    (h : manager guild_id = some call) :
    (mute_handler (mute_handler manager guild_id).2 guild_id).1 = "Already muted"
      ∧ (mute_handler (mute_handler manager guild_id).2 guild_id).2
          = (mute_handler manager guild_id).2
      ∧ (unmute_handler manager guild_id).1 = "Unmuted"
      ∧ (unmute_handler (unmute_handler manager guild_id).2 guild_id).1 = "Unmuted" := by
  by_cases hm : call.isMute
  · have h1 : mute_handler manager guild_id = ("Already muted", manager) := by
      simp [mute_handler, h, hm]
    have h3 : unmute_handler manager guild_id
        = ("Unmuted", updateManager manager guild_id { call with isMute := false }) := by
      simp [unmute_handler, h]
    refine ⟨?_, ?_, ?_, ?_⟩
    · rw [h1]; simp [mute_handler, h, hm]
    · rw [h1]; simp [mute_handler, h, hm]
    · rw [h3]
    · rw [h3]; simp [unmute_handler, updateManager]
  · have h1 : mute_handler manager guild_id
        = ("Now muted", updateManager manager guild_id { call with isMute := true }) := by
      simp [mute_handler, h, hm]
    have h3 : unmute_handler manager guild_id
        = ("Unmuted", updateManager manager guild_id { call with isMute := false }) := by
      simp [unmute_handler, h]
    refine ⟨?_, ?_, ?_, ?_⟩
    · rw [h1]; simp [mute_handler, updateManager]
    · rw [h1]; simp [mute_handler, updateManager]
    · rw [h3]
    · rw [h3]; simp [unmute_handler, updateManager]

theorem mute_unmute_asymmetry_witness :
    (fun g => if g = 1 then some (⟨false, false⟩ : Call) else none) 1 = some ⟨false, false⟩
      ∧ (mute_handler (mute_handler (fun g => if g = 1 then some ⟨false, false⟩ else none) 1).2 1).1
          = "Already muted"
      ∧ (unmute_handler (fun g => if g = 1 then some ⟨false, false⟩ else none) 1).1 = "Unmuted" :=
  ⟨rfl,
    (mute_unmute_asymmetry (fun g => if g = 1 then some ⟨false, false⟩ else none) 1
      ⟨false, false⟩ rfl).1,
    (mute_unmute_asymmetry (fun g => if g = 1 then some ⟨false, false⟩ else none) 1
      ⟨false, false⟩ rfl).2.2.1⟩

/-- C10: whenever the chat play command resolves, opens its file, and has
a session for the invoking room, it replies with the fixed text
Playing song 2 no matter which file was resolved, whereas the console path
reports the resolved file's actual name in Playing name. -/
theorem play_reply_discrepancy (chunk : String) (env : PlayEnv) (guild_id : Nat)
    (path : FsPath) (call : Call) (state : HandlerState) (input : String)
    (file_name : String)
    (h1 : find_path_for_name chunk env.listing = some path)
    (h2 : env.ffmpeg path = some ())
    (h3 : env.manager guild_id = some call)
    (h4 : find_path_for_name input env.listing = some path)
    (h5 : path.fileName = some file_name)
    (h6 : find_active_voice_channel state env.manager = Except.ok call) :
    play_handler (some chunk) env guild_id = "Playing song 2"
      ∧ process_input input state env = Except.ok ("Playing " ++ file_name) := by
  constructor
  · simp only [play_handler, h1, h2, h3]
    decide
  · simp only [process_input, h4, h5, h2, h6]

theorem play_reply_discrepancy_witness :
    find_path_for_name "appla" demoEnv.listing = some ⟨some "applause.wav"⟩
      ∧ demoEnv.ffmpeg ⟨some "applause.wav"⟩ = some ()
      ∧ demoEnv.manager 1 = some ⟨false, false⟩
      ∧ (⟨some "applause.wav"⟩ : FsPath).fileName = some "applause.wav"
      ∧ find_active_voice_channel readyState demoEnv.manager = Except.ok ⟨false, false⟩
      ∧ play_handler (some "appla") demoEnv 1 = "Playing song 2"
      ∧ process_input "appla" readyState demoEnv = Except.ok ("Playing " ++ "applause.wav") :=
  ⟨by decide, rfl, rfl, rfl, rfl,
    (play_reply_discrepancy "appla" demoEnv 1 ⟨some "applause.wav"⟩ ⟨false, false⟩
      readyState "appla" "applause.wav" (by decide) rfl rfl (by decide) rfl rfl).1,
    (play_reply_discrepancy "appla" demoEnv 1 ⟨some "applause.wav"⟩ ⟨false, false⟩
      readyState "appla" "applause.wav" (by decide) rfl rfl (by decide) rfl rfl).2⟩

/-- C7: each of the five failure kinds is recovered at the command-handler
boundary and reported as a plain result message: a malformed or missing
play argument, an unmatched fragment, a source the collaborator cannot
open, a room with no active session, and a connection context that is not
yet ready each yield their fixed reply string instead of a crash. -/
theorem failures_recovered (env : PlayEnv) (guild_id : Nat) (chunk : String)
    (path : FsPath) (state : HandlerState) :
    play_handler none env guild_id = "No matching sound."
      ∧ (find_path_for_name chunk env.listing = none →
          play_handler (some chunk) env guild_id = "no matching file found")
      ∧ (find_path_for_name chunk env.listing = some path → env.ffmpeg path = none →
          play_handler (some chunk) env guild_id = "Error sourcing ffmpeg")
      ∧ (find_path_for_name chunk env.listing = some path → env.ffmpeg path = some () →
          env.manager guild_id = none →
          play_handler (some chunk) env guild_id = "Not in a voice channel to play in")
      ∧ (state.ctx = none →
          find_active_voice_channel state env.manager
            = Except.error "State is uninitialized") := by
  refine ⟨rfl, ?_, ?_, ?_, ?_⟩
  · intro h
    simp [play_handler, h]
  · intro h hf
    simp [play_handler, h, hf]
  · intro h hf hm
    simp [play_handler, h, hf, hm]
  · intro h
    simp [find_active_voice_channel, h]

theorem failures_recovered_witness :
    play_handler none demoEnv 1 = "No matching sound."
      ∧ (find_path_for_name "nonexistent" demoEnv.listing = none
        ∧ play_handler (some "nonexistent") demoEnv 1 = "no matching file found")
      ∧ (find_path_for_name "appla" demoEnv.listing = some ⟨some "applause.wav"⟩
        ∧ play_handler (some "appla")
            ⟨demoEnv.listing, fun _ => none, demoEnv.manager⟩ 1 = "Error sourcing ffmpeg")
      ∧ (play_handler (some "appla")
            ⟨demoEnv.listing, demoEnv.ffmpeg, fun _ => none⟩ 1
          = "Not in a voice channel to play in")
      ∧ find_active_voice_channel ⟨none, []⟩ demoEnv.manager
          = Except.error "State is uninitialized" :=
  ⟨(failures_recovered demoEnv 1 "x" ⟨none⟩ readyState).1,
    ⟨by decide,
      (failures_recovered demoEnv 1 "nonexistent" ⟨none⟩ readyState).2.1 (by decide)⟩,
    ⟨by decide,
      (failures_recovered ⟨demoEnv.listing, fun _ => none, demoEnv.manager⟩ 1 "appla"
        ⟨some "applause.wav"⟩ readyState).2.2.1 (by decide) rfl⟩,
    (failures_recovered ⟨demoEnv.listing, demoEnv.ffmpeg, fun _ => none⟩ 1 "appla"
      ⟨some "applause.wav"⟩ readyState).2.2.2.1 (by decide) rfl rfl,
    (failures_recovered demoEnv 1 "x" ⟨none⟩ ⟨none, []⟩).2.2.2.2 rfl⟩

/-- C6: the console loop works line by line: a line trimming to the exit
sentinel requests the global shutdown and stops processing (later lines
are never touched), every other line is played as a fragment through
process_input — which targets the session found by
find_active_voice_channel — and the resulting message is printed; in the
demonstration scenario with applause.wav on disk the script appla,
nonexistent, exit prints Playing applause.wav then no matching file found
and then shuts down. -/
theorem console_loop_spec (state : HandlerState) (env : PlayEnv)
    (line : String) (rest : List (Option String)) :
    (rustTrim line = "exit" →
        command_line_loop (some line :: rest) state env
          = { outputs := [], shutdownRequested := true })
      ∧ (rustTrim line ≠ "exit" →
          command_line_loop (some line :: rest) state env
            = { outputs := reportLine (process_input (rustTrim line) state env)
                  :: (command_line_loop rest state env).outputs,
                shutdownRequested := (command_line_loop rest state env).shutdownRequested })
      ∧ command_line_loop [some "appla", some "nonexistent", some "exit"] readyState demoEnv
          = { outputs := ["Playing applause.wav", "no matching file found"],
              shutdownRequested := true } := by
  refine ⟨?_, ?_, by decide⟩
  · intro h
    simp [command_line_loop, h]
  · intro h
    simp [command_line_loop, h]

theorem console_loop_spec_witness :
    rustTrim "exit" = "exit"
      ∧ command_line_loop [some "exit", some "appla"] readyState demoEnv
          = { outputs := [], shutdownRequested := true }
      ∧ rustTrim "appla" ≠ "exit"
      ∧ command_line_loop [some "appla"] readyState demoEnv
          = { outputs := [reportLine (process_input (rustTrim "appla") readyState demoEnv)],
              shutdownRequested := false } :=
  ⟨by decide,
    (console_loop_spec readyState demoEnv "exit" [some "appla"]).1 (by decide),
    by decide,
    ((console_loop_spec readyState demoEnv "appla" []).2.1 (by decide)).trans rfl⟩
